import Mathlib

/-!
Verification development for the SIWA (Sign In With Agent) Python SDK
(`siwa_py/siwa.py`).  Python strings are modelled as `List Char`, Python
`int` values reachable in the claims as `Nat`, raisable operations as
`Except PyErr`, and the external collaborators of `verify_siwa`
(signature recovery, RFC 3339 parsing, clock, checksumming, the
registry `ownerOf` call and the `get_code` lookup) as an explicit
environment record of oracles.
-/

set_option autoImplicit false

/-- Model of a Python `str` as a list of characters. -/
abbrev Str := List Char

/-- Python exceptions that the modelled code can raise. -/
inductive PyErr where
  | valueError (msg : Str)
  | indexError
  | keyError
deriving DecidableEq

instance {α β : Type} [DecidableEq α] [DecidableEq β] : DecidableEq (Except α β) := fun x y =>
  match x, y with
  | .ok a, .ok b => if h : a = b then isTrue (by rw [h]) else isFalse (by simp [h])
  | .error a, .error b => if h : a = b then isTrue (by rw [h]) else isFalse (by simp [h])
  | .ok _, .error _ => isFalse (by simp)
  | .error _, .ok _ => isFalse (by simp)

/-- Model of Python `s.split(c)` for a one-character separator. -/
def splitOnChar (c : Char) : Str → List Str
  | [] => [[]]
  | a :: rest =>
    match splitOnChar c rest with
    | [] => [[]]
    | h :: t => if a = c then [] :: h :: t else (a :: h) :: t

/-- Model of Python `c.join(xs)` for a one-character separator. -/
def joinWith (c : Char) : List Str → Str
  | [] => []
  | [l] => l
  | l :: ls => l ++ c :: joinWith c ls

/-- Model of Python `s.partition(sep)`: the text before and after the
first occurrence of `sep`, or `none` when `sep` does not occur. -/
def pyFind (sep : Str) : Str → Option (Str × Str)
  | [] => if List.isPrefixOf sep [] then some ([], []) else none
  | a :: rest =>
    if List.isPrefixOf sep (a :: rest) then
      some ([], List.drop sep.length (a :: rest))
    else
      match pyFind sep rest with
      | some pq => some (a :: pq.1, pq.2)
      | none => none

/-- Python truthiness of a string: `s or None`. -/
def strOrNone (s : Str) : Option Str := if s = [] then none else some s

/-- Python truthiness of an optional string field: `d.get(k)` used in a
boolean context is `some s` exactly when the field is present and
non-empty. -/
def optTruthy : Option Str → Option Str
  | none => none
  | some s => strOrNone s

/-- The characters stripped by Python `str.strip()` (ASCII whitespace). -/
def isPySpace (c : Char) : Bool :=
  c = ' ' || c = '\t' || c = '\n' || c = '\r' || c = '\x0b' || c = '\x0c'

/-- Model of Python `s.strip()`. -/
def pyStrip (s : Str) : Str :=
  ((s.dropWhile isPySpace).reverse.dropWhile isPySpace).reverse

/-- Model of Python `s.lower()`. -/
def pyLower (s : Str) : Str := s.map Char.toLower

/-- Model of Python `s.replace(c, rep)` for a one-character pattern. -/
def pyReplaceChar (c : Char) (rep : Str) : Str → Str
  | [] => []
  | a :: rest => (if a = c then rep else [a]) ++ pyReplaceChar c rep rest

/-- Decimal digit to character. -/
def digitChar10 (d : Nat) : Char := Char.ofNat (48 + d)

/-- Fuelled decimal rendering (structurally recursive so that the kernel
can evaluate it). -/
def natToStrAux : Nat → Nat → Str
  | 0, _ => []
  | fuel + 1, n =>
    if n < 10 then [digitChar10 n]
    else natToStrAux fuel (n / 10) ++ [digitChar10 (n % 10)]

/-- Model of Python `str(n)` for a natural number. -/
def natToStr (n : Nat) : Str := natToStrAux (n + 1) n

/-- Model of Python `int(s)` restricted to unsigned decimal literals;
`none` models the `ValueError` raised on anything else. -/
def parseNat (s : Str) : Option Nat :=
  if s ≠ [] ∧ s.all Char.isDigit then
    some (s.foldl (fun acc c => acc * 10 + (c.toNat - 48)) 0)
  else none

/-- Lookup in the model of a Python `dict` (association list, newest
binding first, so a later `d[k] = v` shadows an earlier one). -/
def dfind : List (Str × Str) → Str → Option Str
  | [], _ => none
  | p :: m, k => if p.1 = k then some p.2 else dfind m k

/-- Lookup with default: `d.get(k, default)`. -/
def dgetD (m : List (Str × Str)) (k : Str) (d : Str) : Str :=
  (dfind m k).getD d

/-- The fixed suffix of the first message line. -/
def suffixLine : Str := (" wants you to sign in with your Agent account:".toList)

/-- Model of `re.match(r"^(.+) wants you to sign in with your Agent
account:$", line)`: the greedy non-empty capture before the fixed
suffix. -/
def matchDomain (l : Str) : Option Str :=
  if List.isSuffixOf suffixLine l ∧ suffixLine.length < l.length then
    some (l.take (l.length - suffixLine.length))
  else none

def uriKey : Str := ("URI".toList)

def versionKey : Str := ("Version".toList)

def agentIdKey : Str := ("Agent ID".toList)

def registryKey : Str := ("Agent Registry".toList)

def chainIdKey : Str := ("Chain ID".toList)

def nonceKey : Str := ("Nonce".toList)

def issuedAtKey : Str := ("Issued At".toList)

def expirationKey : Str := ("Expiration Time".toList)

def notBeforeKey : Str := ("Not Before".toList)

def requestIdKey : Str := ("Request ID".toList)

def colonSp : Str := (": ".toList)

def uriLinePre : Str := ("URI: ".toList)

def hexPre : Str := ("0x".toList)

/-- The fields of a SIWA message (`SIWAMessageFields`).  `address` is
optional at build time (the signer resolves it); fields that the code
reads with a plain index are modelled as always present. -/
structure SIWAMessageFields where
  domain : Str
  address : Option Str
  statement : Option Str
  uri : Str
  version : Str
  agent_id : Nat
  agent_registry : Str
  chain_id : Nat
  nonce : Str
  issued_at : Str
  expiration_time : Option Str
  not_before : Option Str
  request_id : Option Str
deriving DecidableEq

/-- A `Key: value` field line. -/
def fieldLine (k v : Str) : Str := k ++ colonSp ++ v

/-- The list of lines appended by `build_siwa_message`.  `version` is
modelled as always present (the source's `fields.get('version', '1')`
default applies only to dicts lacking the key, which this model does
not represent). -/
def buildLineList (f : SIWAMessageFields) (addr : Str) : List Str :=
  [f.domain ++ suffixLine, addr, []]
    ++ (match optTruthy f.statement with | some s => [s] | none => [])
    ++ [[]]
    ++ [fieldLine uriKey f.uri,
        fieldLine versionKey f.version,
        fieldLine agentIdKey (natToStr f.agent_id),
        fieldLine registryKey f.agent_registry,
        fieldLine chainIdKey (natToStr f.chain_id),
        fieldLine nonceKey f.nonce,
        fieldLine issuedAtKey f.issued_at]
    ++ (match optTruthy f.expiration_time with
        | some e => [fieldLine expirationKey e] | none => [])
    ++ (match optTruthy f.not_before with
        | some e => [fieldLine notBeforeKey e] | none => [])
    ++ (match optTruthy f.request_id with
        | some e => [fieldLine requestIdKey e] | none => [])

/-- The built message given the resolved address line. -/
def buildStr (f : SIWAMessageFields) (addr : Str) : Str :=
  joinWith '\n' (buildLineList f addr)

/-- Model of `build_siwa_message`; indexing `fields["address"]` on a
dict lacking the key raises `KeyError`. -/
def build_siwa_message (f : SIWAMessageFields) : Except PyErr Str :=
  match f.address with
  | none => .error .keyError
  | some a => .ok (buildStr f a)

/-- The mutable state of the parsing loop in `parse_siwa_message`. -/
structure PState where
  fmap : List (Str × Str)
  statement : Option Str
  inStmt : Bool
  stmtLines : List Str

def initPState : PState := ⟨[], none, false, []⟩

/-- One iteration of the `for i in range(2, len(lines))` loop of
`parse_siwa_message`. -/
def stepLine (i : Nat) (line : Str) (st : PState) : PState :=
  if i = 2 ∧ line = [] then { st with inStmt := true }
  else if st.inStmt then
    if line = [] ∨ List.isPrefixOf uriLinePre line then
      let st1 : PState :=
        { st with inStmt := false,
                  statement := strOrNone (pyStrip (joinWith '\n' st.stmtLines)) }
      if List.isPrefixOf uriLinePre line then
        match pyFind colonSp line with
        | some kv => { st1 with fmap := (kv.1, kv.2) :: st1.fmap }
        | none => st1
      else st1
    else { st with stmtLines := st.stmtLines ++ [line] }
  else
    match pyFind colonSp line with
    | some kv => { st with fmap := (kv.1, kv.2) :: st.fmap }
    | none => st

/-- The parsing loop, carrying the current line index. -/
def goLines : Nat → List Str → PState → PState
  | _, [], st => st
  | i, l :: ls, st => goLines (i + 1) ls (stepLine i l st)

/-- Model of `parse_siwa_message`. -/
def parse_siwa_message (message : Str) : Except PyErr SIWAMessageFields :=
  let lines := splitOnChar '\n' message
  match matchDomain (lines.headD []) with
  | none => .error (.valueError ("Invalid SIWA message: missing domain line".toList))
  | some domain =>
    match lines[1]? with
    | none => .error .indexError
    | some address =>
      if address = [] ∨ ¬ List.isPrefixOf hexPre address ∨ address.length ≠ 42 then
        .error (.valueError ("Invalid SIWA message: missing or malformed address".toList))
      else
        let st := goLines 2 (lines.drop 2) initPState
        match parseNat (dgetD st.fmap agentIdKey ("0".toList)),
              parseNat (dgetD st.fmap chainIdKey ("0".toList)) with
        | some aid, some cid =>
          .ok { domain := domain
                address := some address
                statement := st.statement
                uri := dgetD st.fmap uriKey []
                version := dgetD st.fmap versionKey ("1".toList)
                agent_id := aid
                agent_registry := dgetD st.fmap registryKey []
                chain_id := cid
                nonce := dgetD st.fmap nonceKey []
                issued_at := dgetD st.fmap issuedAtKey []
                expiration_time := dfind st.fmap expirationKey
                not_before := dfind st.fmap notBeforeKey
                request_id := dfind st.fmap requestIdKey }
        | _, _ => .error (.valueError ("invalid literal for int".toList))

/-- Error codes (`SIWAErrorCode`). -/
inductive SIWAErrorCode where
  | INVALID_SIGNATURE
  | DOMAIN_MISMATCH
  | INVALID_NONCE
  | MESSAGE_EXPIRED
  | MESSAGE_NOT_YET_VALID
  | INVALID_REGISTRY_FORMAT
  | NOT_REGISTERED
  | NOT_OWNER
  | AGENT_NOT_ACTIVE
  | MISSING_SERVICE
  | MISSING_TRUST_MODEL
  | LOW_REPUTATION
  | CUSTOM_CHECK_FAILED
  | VERIFICATION_FAILED
deriving DecidableEq

/-- The `verified` tag of a verification result. -/
inductive Verified where
  | offline
  | onchain
deriving DecidableEq

/-- Signer-type classification. -/
inductive SignerType where
  | eoa
  | sca
deriving DecidableEq

/-- Result of SIWA verification (`SIWAVerificationResult`); every field
set by the pipeline is modelled as present. -/
structure SIWAVerificationResult where
  valid : Bool
  address : Str
  agent_id : Nat
  agent_registry : Str
  chain_id : Nat
  verified : Verified
  signer_type : Option SignerType
  code : Option SIWAErrorCode
  error : Option Str
deriving DecidableEq

/-- A signer (`Signer`): the resolved address returned by
`get_address()` and the signature returned by `sign_message`. -/
structure SignerM where
  address : Str
  sign : Str → Str

/-- The dict returned by `sign_siwa_message`. -/
structure SignOutput where
  message : Str
  signature : Str
  address : Str
deriving DecidableEq

/-- Model of `sign_siwa_message`: the address-mismatch guard
`if fields.get("address") and signer_address.lower() != fields["address"].lower()`
followed by rebuilding with the resolved address and signing. -/
def sign_siwa_message (fields : SIWAMessageFields) (signer : SignerM) :
    Except PyErr SignOutput :=
  let signer_address := signer.address
  let proceed : Except PyErr SignOutput :=
    match build_siwa_message { fields with address := some signer_address } with
    | .ok m => .ok { message := m, signature := signer.sign m, address := signer_address }
    | .error e => .error e
  match optTruthy fields.address with
  | some a =>
    if pyLower signer_address ≠ pyLower a then
      .error (.valueError (("Address mismatch: signer has ".toList) ++ signer_address
        ++ (", message claims ".toList) ++ a))
    else proceed
  | none => proceed

/-- The external collaborators of `verify_siwa`, as oracles.
`recover` is the outcome of `Account.recover_message` on the given
message and signature; `fromiso` models
`datetime.fromisoformat(s).replace(tzinfo=None)` as a naive timestamp
(`none` models the `ValueError` on an unparseable string); `now` is
`datetime.utcnow()`; `toChecksum` is `Web3.to_checksum_address`;
`ownerOf` is the registry contract call; `getCode` is
`w3.eth.get_code` returning raw bytes. -/
structure VerifyEnv where
  recover : Except PyErr Str
  fromiso : Str → Option Int
  now : Int
  toChecksum : Str → Except PyErr Str
  ownerOf : Str → Nat → Except PyErr Str
  getCode : Str → Except PyErr (List Nat)

/-- The `fail` helper inside `verify_siwa`: note that it hardcodes
`verified="onchain"`. -/
def failRes (f : SIWAMessageFields) (c : SIWAErrorCode) (e : Str) :
    SIWAVerificationResult :=
  { valid := false
    address := f.address.getD []
    agent_id := f.agent_id
    agent_registry := f.agent_registry
    chain_id := f.chain_id
    verified := .onchain
    signer_type := none
    code := some c
    error := some e }

/-- Normalization applied before `datetime.fromisoformat`:
`s.replace("Z", "+00:00")`. -/
def zNorm (s : Str) : Str := pyReplaceChar 'Z' ("+00:00".toList) s

/-- Stage 7 of `verify_siwa`: registry format check, on-chain ownership
and signer-type classification.  The inner `try` around contract
construction and `ownerOf` maps any error to `NOT_REGISTERED`; errors
in the later `get_code` lookup propagate (to the outer handler). -/
def onchainStage (env : VerifyEnv) (f : SIWAMessageFields) (addr recovered : Str)
    (registry_address : Option Str) : Except PyErr SIWAVerificationResult :=
  if (splitOnChar ':' f.agent_registry).length ≠ 3 ∨
      (splitOnChar ':' f.agent_registry).headD [] ≠ ("eip155".toList) then
    .ok (failRes f .INVALID_REGISTRY_FORMAT ("Invalid agent_registry format".toList))
  else
    match env.toChecksum
        ((optTruthy registry_address).getD ((splitOnChar ':' f.agent_registry).getD 2 [])) with
    | .error _ =>
      .ok (failRes f .NOT_REGISTERED
        ("Agent is not registered on the ERC-8004 Identity Registry".toList))
    | .ok chk =>
    match env.ownerOf chk f.agent_id with
    | .error _ =>
      .ok (failRes f .NOT_REGISTERED
        ("Agent is not registered on the ERC-8004 Identity Registry".toList))
    | .ok owner =>
      if pyLower owner ≠ pyLower recovered then
        .ok (failRes f .NOT_OWNER ("Signer is not the owner of this agent NFT".toList))
      else
        match env.toChecksum addr with
        | .error e => .error e
        | .ok caddr =>
          match env.getCode caddr with
          | .error e => .error e
          | .ok bytes =>
            .ok { valid := true
                  address := recovered
                  agent_id := f.agent_id
                  agent_registry := f.agent_registry
                  chain_id := f.chain_id
                  verified := .onchain
                  signer_type := some (if bytes ≠ [] then .sca else .eoa)
                  code := none
                  error := none }

/-- The `not_before` half of stage 6. -/
def afterExpStage (env : VerifyEnv) (f : SIWAMessageFields) (addr recovered : Str)
    (registry_address : Option Str) : Except PyErr SIWAVerificationResult :=
  match optTruthy f.not_before with
  | some nb =>
    match env.fromiso (zNorm nb) with
    | none => .error (.valueError ("Invalid isoformat string".toList))
    | some tnb =>
      if env.now < tnb then
        .ok (failRes f .MESSAGE_NOT_YET_VALID ("Message not yet valid (not_before)".toList))
      else onchainStage env f addr recovered registry_address
  | none => onchainStage env f addr recovered registry_address

/-- Stage 6 of `verify_siwa`: the time window. -/
def timeStage (env : VerifyEnv) (f : SIWAMessageFields) (addr recovered : Str)
    (registry_address : Option Str) : Except PyErr SIWAVerificationResult :=
  match optTruthy f.expiration_time with
  | some et =>
    match env.fromiso (zNorm et) with
    | none => .error (.valueError ("Invalid isoformat string".toList))
    | some texp =>
      if texp < env.now then
        .ok (failRes f .MESSAGE_EXPIRED ("Message expired".toList))
      else afterExpStage env f addr recovered registry_address
  | none => afterExpStage env f addr recovered registry_address

/-- The body of the big `try` in `verify_siwa`: parse, signature
recovery, address match, domain binding, nonce validation, then the
time window and the chain stages.  An `.error` models an exception
reaching the outer handler. -/
def verifyCore (env : VerifyEnv) (message : Str) (expected_domain : Str)
    (nonce_validator : Str → Bool) (registry_address : Option Str) :
    Except PyErr SIWAVerificationResult :=
  match parse_siwa_message message with
  | .error e => .error e
  | .ok f =>
    match env.recover with
    | .error _ => .ok (failRes f .INVALID_SIGNATURE ("Invalid signature".toList))
    | .ok recovered =>
      match f.address with
      | none => .error .keyError
      | some addr =>
        if pyLower recovered ≠ pyLower addr then
          .ok (failRes f .INVALID_SIGNATURE
            (("Signature recovered ".toList) ++ recovered
              ++ (", expected ".toList) ++ addr))
        else if f.domain ≠ expected_domain then
          .ok (failRes f .DOMAIN_MISMATCH
            (("Domain mismatch: expected ".toList) ++ expected_domain
              ++ (", got ".toList) ++ f.domain))
        else if ¬ nonce_validator f.nonce then
          .ok (failRes f .INVALID_NONCE ("Invalid or consumed nonce".toList))
        else timeStage env f addr recovered registry_address

/-- The result built by the outer `except Exception` handler. -/
def catchAllResult (e : PyErr) : SIWAVerificationResult :=
  { valid := false
    address := []
    agent_id := 0
    agent_registry := []
    chain_id := 0
    verified := .offline
    signer_type := none
    code := some .VERIFICATION_FAILED
    error := some (match e with
      | .valueError m => m
      | .indexError => ("list index out of range".toList)
      | .keyError => ("KeyError".toList)) }

/-- Model of `verify_siwa`: the pipeline body wrapped in the outer
exception handler, hence total. -/
def verify_siwa (env : VerifyEnv) (message : Str) (expected_domain : Str)
    (nonce_validator : Str → Bool) (registry_address : Option Str) :
    SIWAVerificationResult :=
  match verifyCore env message expected_domain nonce_validator registry_address with
  | .ok r => r
  | .error e => catchAllResult e

/-- Response status (`SIWAResponse["status"]`). -/
inductive RespStatus where
  | authenticated
  | not_registered
  | rejected
deriving DecidableEq

/-- Reference to the SIWA skill/SDK (`SIWASkillRef`). -/
structure SIWASkillRef where
  name : Str
  install : Str
  url : Str
deriving DecidableEq

/-- The constant skill reference built by `build_siwa_response`. -/
def skillRefC : SIWASkillRef :=
  { name := ("siwa".toList)
    install := ("pip install siwa".toList)
    url := ("https://siwa.id/skill.md".toList) }

/-- Action for unregistered agents (`SIWAAction`); `action_type` models
the `type` key, which is always `"register"`. -/
structure SIWAAction where
  action_type : Str
  message : Str
  skill : SIWASkillRef
  steps : List Str
  registry_address : Option Str
  chain_id : Option Nat
deriving DecidableEq

/-- The fixed six-step remediation list. -/
def registerSteps : List Str :=
  [("Install the SDK: pip install siwa".toList),
   ("Create a wallet: from siwa import create_wallet; wallet = create_wallet()".toList),
   ("Fund the wallet with ETH on the target chain for gas fees".toList),
   ("Build ERC-8004 registration metadata (JSON with name, description, services, active: true)".toList),
   ("Register onchain: call register(agent_uri) on the Identity Registry contract".toList),
   ("Retry SIWA sign-in".toList)]

/-- Standard SIWA response (`SIWAResponse`). -/
structure SIWAResponse where
  status : RespStatus
  address : Str
  agent_id : Nat
  agent_registry : Str
  chain_id : Nat
  verified : Verified
  signer_type : Option SignerType
  code : Option SIWAErrorCode
  error : Option Str
  action : Option SIWAAction
  skill : Option SIWASkillRef
deriving DecidableEq

/-- The `chainId` computed in the `NOT_REGISTERED` branch of
`build_siwa_response`: `result.get("chain_id") or (int(registry_parts[1])
if len(registry_parts) >= 2 else None)`.  The `.error` case models the
`ValueError` raised by `int` on a non-numeric second part. -/
def respChainId (r : SIWAVerificationResult) : Except PyErr (Option Nat) :=
  if r.chain_id ≠ 0 then .ok (some r.chain_id)
  else if 2 ≤ (splitOnChar ':' r.agent_registry).length then
    match parseNat ((splitOnChar ':' r.agent_registry).getD 1 []) with
    | some n => .ok (some n)
    | none => .error (.valueError ("invalid literal for int".toList))
  else .ok none

/-- Model of `build_siwa_response`.  The `.error` case models the
uncaught `ValueError` from `int(registry_parts[1])`. -/
def build_siwa_response (r : SIWAVerificationResult) :
    Except PyErr SIWAResponse :=
  if r.valid then
    .ok { status := .authenticated
          address := r.address
          agent_id := r.agent_id
          agent_registry := r.agent_registry
          chain_id := r.chain_id
          verified := r.verified
          signer_type := r.signer_type
          code := none
          error := none
          action := none
          skill := none }
  else if r.code = some .NOT_REGISTERED then
    match respChainId r with
    | .error e => .error e
    | .ok cid =>
      .ok { status := .not_registered
            address := r.address
            agent_id := r.agent_id
            agent_registry := r.agent_registry
            chain_id := r.chain_id
            verified := r.verified
            signer_type := r.signer_type
            code := r.code
            error := some ("Agent is not registered on the ERC-8004 Identity Registry.".toList)
            action := some
              { action_type := ("register".toList)
                message := ("This address is not registered as an ERC-8004 agent. Install the SIWA SDK and register before signing in.".toList)
                skill := skillRefC
                steps := registerSteps
                registry_address :=
                  if (splitOnChar ':' r.agent_registry).length = 3 then
                    some ((splitOnChar ':' r.agent_registry).getD 2 [])
                  else none
                chain_id := cid }
            skill := some skillRefC }
  else
    .ok { status := .rejected
          address := r.address
          agent_id := r.agent_id
          agent_registry := r.agent_registry
          chain_id := r.chain_id
          verified := r.verified
          signer_type := r.signer_type
          code := r.code
          error := r.error
          action := none
          skill := some skillRefC }

/-- The normalization that `parse ∘ build` applies to fields: the
statement is stripped and collapses to absent when empty, and optional
fields that are present but empty collapse to absent. -/
def normalizeFields (f : SIWAMessageFields) : SIWAMessageFields :=
  { f with
    statement := match f.statement with
      | none => none
      | some s => strOrNone (pyStrip s)
    expiration_time := optTruthy f.expiration_time
    not_before := optTruthy f.not_before
    request_id := optTruthy f.request_id }

/-- The seven always-present field lines of `build_siwa_message`, as
key/value pairs. -/
def basePairs (f : SIWAMessageFields) : List (Str × Str) :=
  [(uriKey, f.uri), (versionKey, f.version), (agentIdKey, natToStr f.agent_id),
   (registryKey, f.agent_registry), (chainIdKey, natToStr f.chain_id),
   (nonceKey, f.nonce), (issuedAtKey, f.issued_at)]

/-- The optional field lines of `build_siwa_message` (emitted only when
present and non-empty), as key/value pairs. -/
def optPairs (f : SIWAMessageFields) : List (Str × Str) :=
  (match optTruthy f.expiration_time with
   | some e => [(expirationKey, e)] | none => [])
  ++ (match optTruthy f.not_before with
      | some e => [(notBeforeKey, e)] | none => [])
  ++ (match optTruthy f.request_id with
      | some e => [(requestIdKey, e)] | none => [])

/-- The message lines contributed by the statement block. -/
def stmtLines (f : SIWAMessageFields) : List Str :=
  match optTruthy f.statement with
  | some s => splitOnChar '\n' s
  | none => []

/-- The statement value recovered by the parser from a built message. -/
def stmtVal (f : SIWAMessageFields) : Option Str :=
  match optTruthy f.statement with
  | some s => strOrNone (pyStrip s)
  | none => none

/-- Concrete fields whose statement is the single line `URI: x`. -/
def c1CexFields : SIWAMessageFields :=
  { domain := ("example.com".toList)
    address := some ("0x1234567890123456789012345678901234567890".toList)
    statement := some ("URI: x".toList)
    uri := ("https://example.com/login".toList)
    version := ("1".toList)
    agent_id := 7
    agent_registry := ("eip155:1:0x8004AA63B05E4C14eC1Fe6B35AD3bAe8A7Bc9b66".toList)
    chain_id := 1
    nonce := ("n1".toList)
    issued_at := ("2024-01-01T00:00:00Z".toList)
    expiration_time := none
    not_before := none
    request_id := none }

/-- Concrete fields exercising every optional field and a multi-line
statement with surrounding whitespace. -/
def c1WitFields : SIWAMessageFields :=
  { domain := ("test.example.com".toList)
    address := some ("0xABCDEF1234567890ABCDEF1234567890ABCDEF12".toList)
    statement := some (" Multi-line \nstatement test. ".toList)
    uri := ("https://test.example.com/api/siwa".toList)
    version := ("1".toList)
    agent_id := 999
    agent_registry := ("eip155:42161:0x1234567890123456789012345678901234567890".toList)
    chain_id := 42161
    nonce := ("secure-nonce-value".toList)
    issued_at := ("2024-06-01T00:00:00Z".toList)
    expiration_time := some ("2024-06-01T00:05:00Z".toList)
    not_before := some ("2024-06-01T00:00:00Z".toList)
    request_id := some ("request-id-12345".toList) }

/-- A message consisting of only a valid first line. -/
def c5SingleLine : Str :=
  ("example.com wants you to sign in with your Agent account:".toList)

/-- Concrete fields with a present-but-empty address. -/
def c10Fields : SIWAMessageFields :=
  { domain := ("example.com".toList)
    address := some []
    statement := none
    uri := ("https://example.com/login".toList)
    version := ("1".toList)
    agent_id := 3
    agent_registry := ("eip155:1:0x8004AA63B05E4C14eC1Fe6B35AD3bAe8A7Bc9b66".toList)
    chain_id := 1
    nonce := ("n-abc".toList)
    issued_at := ("2024-01-01T00:00:00Z".toList)
    expiration_time := none
    not_before := none
    request_id := none }

/-- A concrete signer. -/
def c10Signer : SignerM :=
  { address := ("0xAbCd567890123456789012345678901234567890".toList)
    sign := fun _ => ("0xsignature".toList) }

/-- Concrete fields whose address disagrees with the signer. -/
def c6Fields : SIWAMessageFields :=
  { c10Fields with address := some ("0x9999999999999999999999999999999999999999".toList) }

/-- A concrete address used by the verification fixtures. -/
def exVerifyAddr : Str := ("0x1111111111111111111111111111111111111111".toList)

/-- Concrete well-formed fields for verification fixtures. -/
def exVerifyFields : SIWAMessageFields :=
  { domain := ("service.example".toList)
    address := some exVerifyAddr
    statement := none
    uri := ("https://service.example/login".toList)
    version := ("1".toList)
    agent_id := 5
    agent_registry := ("eip155:8453:0x2222222222222222222222222222222222222222".toList)
    chain_id := 8453
    nonce := ("nonce-1".toList)
    issued_at := ("2025-01-01T00:00:00Z".toList)
    expiration_time := none
    not_before := none
    request_id := none }

/-- The built message for `exVerifyFields`. -/
def exVerifyMsg : Str := buildStr exVerifyFields exVerifyAddr

/-- An environment whose signature recovery raises. -/
def c2CexEnv : VerifyEnv :=
  { recover := .error (.valueError ("bad signature".toList))
    fromiso := fun _ => some 0
    now := 0
    toChecksum := fun s => .ok s
    ownerOf := fun _ _ => .ok []
    getCode := fun _ => .ok [] }

/-- An environment whose signature recovery returns the fixture's
address. -/
def c4Env : VerifyEnv :=
  { recover := .ok exVerifyAddr
    fromiso := fun _ => some 0
    now := 0
    toChecksum := fun s => .ok s
    ownerOf := fun _ _ => .ok []
    getCode := fun _ => .ok [] }

/-- The expiration stage passes: either no (truthy) expiration is
present, or it parses to a time not earlier than now. -/
def expOkP (env : VerifyEnv) (f : SIWAMessageFields) : Prop :=
  ∀ et, optTruthy f.expiration_time = some et →
    ∃ t, env.fromiso (zNorm et) = some t ∧ ¬ t < env.now

/-- Fields with both time-window bounds present. -/
def c7Fields : SIWAMessageFields :=
  { exVerifyFields with
    expiration_time := some ("2025-01-02T00:00:00Z".toList)
    not_before := some ("2025-01-01T00:00:00Z".toList) }

/-- The built message for `c7Fields`. -/
def c7Msg : Str := buildStr c7Fields exVerifyAddr

/-- An environment whose clock is past every parsed timestamp. -/
def c7Env : VerifyEnv :=
  { recover := .ok exVerifyAddr
    fromiso := fun _ => some 50
    now := 100
    toChecksum := fun s => .ok s
    ownerOf := fun _ _ => .ok []
    getCode := fun _ => .ok [] }

/-- An environment whose chain lookups all succeed except the
contract-code lookup, which raises. -/
def c9EnvBad : VerifyEnv :=
  { recover := .ok exVerifyAddr
    fromiso := fun _ => some 0
    now := 0
    toChecksum := fun s => .ok s
    ownerOf := fun _ _ => .ok exVerifyAddr
    getCode := fun _ => .error (.valueError ("rpc down".toList)) }

/-- Like `c9EnvBad` but with a successful contract-code lookup
returning non-empty code. -/
def c9EnvGood : VerifyEnv :=
  { recover := .ok exVerifyAddr
    fromiso := fun _ => some 0
    now := 0
    toChecksum := fun s => .ok s
    ownerOf := fun _ _ => .ok exVerifyAddr
    getCode := fun _ => .ok [96] }

/-- A NOT_REGISTERED result with a falsy (zero) chain id and a
non-numeric second registry part. -/
def c8CexResult : SIWAVerificationResult :=
  { valid := false
    address := exVerifyAddr
    agent_id := 5
    agent_registry := ("eip155:foo:0x2222222222222222222222222222222222222222".toList)
    chain_id := 0
    verified := .onchain
    signer_type := none
    code := some .NOT_REGISTERED
    error := some ("Agent is not registered on the ERC-8004 Identity Registry".toList) }

/-- A NOT_REGISTERED result exercising the numeric chain-id fallback. -/
def c8WitResult : SIWAVerificationResult :=
  { c8CexResult with
    agent_registry := ("eip155:8453:0x2222222222222222222222222222222222222222".toList) }

theorem splitOnChar_ne_nil (c : Char) (s : Str) : splitOnChar c s ≠ [] := by
  induction s with
  | nil => simp [splitOnChar]
  | cons a rest ih =>
    simp only [splitOnChar]
    split
    · simp
    · split <;> simp

theorem splitOnChar_append (c : Char) (u v : Str) :
    splitOnChar c (u ++ c :: v) = splitOnChar c u ++ splitOnChar c v := by
  induction u with
  | nil =>
    simp only [List.nil_append, splitOnChar]
    split
    · exact absurd (by assumption) (splitOnChar_ne_nil c v)
    · simp_all
  | cons a u ih =>
    simp only [List.cons_append, splitOnChar]
    cases h : splitOnChar c u with
    | nil => exact absurd h (splitOnChar_ne_nil c u)
    | cons hd tl =>
      simp only [List.append_eq]
      rw [ih, h]
      simp only [List.cons_append]
      by_cases hac : a = c <;> simp [hac]

theorem splitOnChar_no_sep (c : Char) (s : Str) (h : ∀ a ∈ s, a ≠ c) :
    splitOnChar c s = [s] := by
  induction s with
  | nil => simp [splitOnChar]
  | cons a rest ih =>
    have ha : a ≠ c := h a (by simp)
    have := ih (fun x hx => h x (by simp [hx]))
    simp only [splitOnChar, this]
    simp [ha]

theorem joinWith_splitOnChar (c : Char) (s : Str) :
    joinWith c (splitOnChar c s) = s := by
  induction s with
  | nil => simp [splitOnChar, joinWith]
  | cons a rest ih =>
    simp only [splitOnChar]
    cases h : splitOnChar c rest with
    | nil => exact absurd h (splitOnChar_ne_nil c rest)
    | cons hd tl =>
      rw [h] at ih
      by_cases hac : a = c
      · subst hac
        simp only [if_pos rfl]
        cases tl <;> simp_all [joinWith]
      · simp only [if_neg hac]
        cases tl <;> simp_all [joinWith]

theorem joinWith_cons (c : Char) (l : Str) (ls : List Str) (h : ls ≠ []) :
    joinWith c (l :: ls) = l ++ c :: joinWith c ls := by
  cases ls with
  | nil => exact absurd rfl h
  | cons x xs => rfl

theorem splitOnChar_joinWith (c : Char) (L : List Str) (hL : L ≠ []) :
    splitOnChar c (joinWith c L) = (L.map (splitOnChar c)).flatten := by
  induction L with
  | nil => exact absurd rfl hL
  | cons l ls ih =>
    cases hls : ls with
    | nil => simp [joinWith]
    | cons x xs =>
      subst hls
      rw [joinWith_cons c l (x :: xs) (by simp), splitOnChar_append]
      rw [ih (by simp)]
      simp

theorem digitChar10_toNat (d : Nat) (h : d < 10) : (digitChar10 d).toNat = 48 + d := by
  interval_cases d <;> decide

theorem digitChar10_isDigit (d : Nat) (h : d < 10) : (digitChar10 d).isDigit = true := by
  interval_cases d <;> decide

theorem isDigit_ne_newline (c : Char) (h : c.isDigit = true) : c ≠ '\n' := by
  intro he
  subst he
  exact absurd h (by decide)

theorem natToStrAux_spec (fuel : Nat) : ∀ n, n < fuel →
    (∀ c ∈ natToStrAux fuel n, c.isDigit = true) ∧ natToStrAux fuel n ≠ [] ∧
    ∀ acc, List.foldl (fun acc c => acc * 10 + (c.toNat - 48)) acc (natToStrAux fuel n)
      = acc * 10 ^ (natToStrAux fuel n).length + n := by
  induction fuel with
  | zero => intro n hn; omega
  | succ fuel ih =>
    intro n hn
    by_cases h10 : n < 10
    · refine ⟨?_, ?_, ?_⟩
      · intro c hc
        simp only [natToStrAux, if_pos h10, List.mem_singleton] at hc
        subst hc
        exact digitChar10_isDigit n h10
      · simp [natToStrAux, if_pos h10]
      · intro acc
        simp only [natToStrAux, if_pos h10, List.foldl_cons, List.foldl_nil,
          List.length_singleton, pow_one]
        rw [digitChar10_toNat n h10]
        omega
    · have hq : n / 10 < fuel := by
        have h1 : n / 10 < n := Nat.div_lt_self (by omega) (by omega)
        omega
      obtain ⟨hdig, hne, hfold⟩ := ih (n / 10) hq
      refine ⟨?_, ?_, ?_⟩
      · intro c hc
        simp only [natToStrAux, if_neg h10, List.mem_append, List.mem_singleton] at hc
        rcases hc with hc | hc
        · exact hdig c hc
        · subst hc
          exact digitChar10_isDigit _ (Nat.mod_lt n (by omega))
      · simp [natToStrAux, if_neg h10]
      · intro acc
        simp only [natToStrAux, if_neg h10, List.foldl_append, List.foldl_cons,
          List.foldl_nil, List.length_append, List.length_singleton]
        rw [hfold acc, digitChar10_toNat _ (Nat.mod_lt n (by omega))]
        have hmod : 10 * (n / 10) + n % 10 = n := Nat.div_add_mod n 10
        have hpow : 10 ^ ((natToStrAux fuel (n / 10)).length + 1)
            = 10 ^ (natToStrAux fuel (n / 10)).length * 10 := pow_succ 10 _
        rw [hpow]
        ring_nf
        omega

theorem natToStr_digits (n : Nat) : ∀ c ∈ natToStr n, c.isDigit = true :=
  (natToStrAux_spec (n + 1) n (by omega)).1

theorem natToStr_ne_nil (n : Nat) : natToStr n ≠ [] :=
  (natToStrAux_spec (n + 1) n (by omega)).2.1

theorem parseNat_natToStr (n : Nat) : parseNat (natToStr n) = some n := by
  obtain ⟨hdig, hne, hfold⟩ := natToStrAux_spec (n + 1) n (by omega)
  unfold parseNat natToStr
  rw [if_pos ⟨hne, List.all_eq_true.mpr (fun c hc => hdig c hc)⟩]
  rw [hfold 0]
  simp

theorem natToStr_no_newline (n : Nat) : ∀ c ∈ natToStr n, c ≠ '\n' :=
  fun c hc => isDigit_ne_newline c (natToStr_digits n c hc)

theorem pyFind_fieldLine (k v : Str) (hk : ':' ∉ k) :
    pyFind colonSp (fieldLine k v) = some (k, v) := by
  induction k with
  | nil =>
    show pyFind colonSp (':' :: ' ' :: v) = some ([], v)
    simp [pyFind, colonSp, List.isPrefixOf]
  | cons a k ih =>
    have ha : a ≠ ':' := fun he => hk (by simp [he])
    have hk' : ':' ∉ k := fun hm => hk (by simp [hm])
    show pyFind colonSp (a :: (k ++ colonSp ++ v)) = some (a :: k, v)
    simp only [pyFind]
    rw [if_neg]
    · have := ih hk'
      simp only [fieldLine] at this
      rw [this]
    · simp only [colonSp]
      simp [List.isPrefixOf]
      intro he
      exact absurd he.symm ha

theorem matchDomain_build (d : Str) (hd : d ≠ []) :
    matchDomain (d ++ suffixLine) = some d := by
  unfold matchDomain
  rw [if_pos]
  · congr 1
    rw [List.length_append]
    have : d.length + suffixLine.length - suffixLine.length = d.length := by omega
    rw [this]
    exact List.take_left' rfl
  · constructor
    · exact List.isSuffixOf_iff_suffix.mpr ⟨d, rfl⟩
    · rw [List.length_append]
      have : 0 < d.length := List.length_pos.mpr hd
      omega

theorem fieldLine_ne_nil (k v : Str) : fieldLine k v ≠ [] := by
  simp [fieldLine, colonSp]

theorem stepLine_i2_blank (st : PState) :
    stepLine 2 [] st = { st with inStmt := true } := by
  simp [stepLine]

theorem stepLine_blank_exit (i : Nat) (st : PState) (hi : i ≠ 2) (hs : st.inStmt = true) :
    stepLine i [] st =
      { st with inStmt := false,
                statement := strOrNone (pyStrip (joinWith '\n' st.stmtLines)) } := by
  unfold stepLine
  rw [if_neg (by simp [hi]), if_pos hs, if_pos (Or.inl rfl), if_neg (by decide)]

theorem stepLine_stmt_acc (i : Nat) (l : Str) (st : PState) (hl : l ≠ [])
    (hu : List.isPrefixOf uriLinePre l = false) (hs : st.inStmt = true) :
    stepLine i l st = { st with stmtLines := st.stmtLines ++ [l] } := by
  unfold stepLine
  rw [if_neg (by simp [hl]), if_pos hs, if_neg (by simp [hl, hu])]

theorem stepLine_field (i : Nat) (k v : Str) (st : PState) (hk : ':' ∉ k)
    (hs : st.inStmt = false) :
    stepLine i (fieldLine k v) st = { st with fmap := (k, v) :: st.fmap } := by
  unfold stepLine
  rw [if_neg (by simp [fieldLine_ne_nil]), if_neg (by simp [hs]),
    pyFind_fieldLine k v hk]

theorem goLines_append (xs ys : List Str) (i : Nat) (st : PState) :
    goLines i (xs ++ ys) st = goLines (i + xs.length) ys (goLines i xs st) := by
  induction xs generalizing i st with
  | nil => simp [goLines]
  | cons x xs ih =>
    simp only [List.cons_append, goLines, List.append_eq, ih, List.length_cons]
    have h2 : i + (xs.length + 1) = i + 1 + xs.length := by omega
    rw [h2]

theorem goLines_stmt (S : List Str) (i : Nat) (st : PState)
    (hS : ∀ l ∈ S, l ≠ [] ∧ List.isPrefixOf uriLinePre l = false)
    (hs : st.inStmt = true) :
    goLines i S st = { st with stmtLines := st.stmtLines ++ S } := by
  induction S generalizing i st with
  | nil => simp [goLines]
  | cons l ls ih =>
    obtain ⟨hl, hu⟩ := hS l (by simp)
    simp only [goLines]
    rw [stepLine_stmt_acc i l st hl hu hs]
    rw [ih (i + 1) { st with stmtLines := st.stmtLines ++ [l] }
      (fun x hx => hS x (List.mem_cons_of_mem _ hx)) hs]
    simp

theorem goLines_fieldBlock (ps : List (Str × Str)) (i : Nat) (st : PState)
    (hp : ∀ p ∈ ps, ':' ∉ p.1) (hs : st.inStmt = false) :
    goLines i (ps.map (fun p => fieldLine p.1 p.2)) st
      = { st with fmap := ps.reverse ++ st.fmap } := by
  induction ps generalizing i st with
  | nil => simp [goLines]
  | cons p ps ih =>
    simp only [List.map_cons, goLines]
    rw [stepLine_field i p.1 p.2 st (hp p (by simp)) hs]
    rw [ih (i + 1) { st with fmap := (p.1, p.2) :: st.fmap }
      (fun x hx => hp x (List.mem_cons_of_mem _ hx)) hs]
    simp

theorem buildLineList_pairs (f : SIWAMessageFields) (addr : Str) :
    buildLineList f addr
      = [f.domain ++ suffixLine, addr, []]
        ++ (match optTruthy f.statement with | some s => [s] | none => [])
        ++ [[]] ++ (basePairs f ++ optPairs f).map (fun p => fieldLine p.1 p.2) := by
  unfold buildLineList basePairs optPairs
  cases optTruthy f.expiration_time <;> cases optTruthy f.not_before <;>
    cases optTruthy f.request_id <;> simp

theorem flatten_split (L : List Str) (h : ∀ l ∈ L, ∀ a ∈ l, a ≠ '\n') :
    (L.map (splitOnChar '\n')).flatten = L := by
  induction L with
  | nil => simp
  | cons l ls ih =>
    simp only [List.map_cons, List.flatten_cons]
    rw [splitOnChar_no_sep '\n' l (h l (by simp)),
      ih (fun x hx => h x (List.mem_cons_of_mem _ hx))]
    simp

theorem fieldLine_noNL (k v : Str) (hk : ∀ a ∈ k, a ≠ '\n') (hv : ∀ a ∈ v, a ≠ '\n') :
    ∀ a ∈ fieldLine k v, a ≠ '\n' := by
  intro a ha
  simp only [fieldLine, colonSp, List.append_assoc, List.mem_append] at ha
  rcases ha with ha | ha | ha
  · exact hk a ha
  · simp at ha
    rcases ha with ha | ha <;> (subst ha; decide)
  · exact hv a ha

theorem mem_ne_of_not_mem {s : Str} (h : '\n' ∉ s) : ∀ a ∈ s, a ≠ '\n' :=
  fun a ha he => h (he ▸ ha)

theorem buildStr_split (f : SIWAMessageFields) (addr : Str)
    (haddrNL : '\n' ∉ addr) (hdomNL : '\n' ∉ f.domain)
    (huri : '\n' ∉ f.uri) (hver : '\n' ∉ f.version) (hreg : '\n' ∉ f.agent_registry)
    (hnon : '\n' ∉ f.nonce) (hiss : '\n' ∉ f.issued_at)
    (hexp : ∀ e, optTruthy f.expiration_time = some e → '\n' ∉ e)
    (hnbf : ∀ e, optTruthy f.not_before = some e → '\n' ∉ e)
    (hrid : ∀ e, optTruthy f.request_id = some e → '\n' ∉ e) :
    splitOnChar '\n' (buildStr f addr)
      = [f.domain ++ suffixLine, addr, []] ++ stmtLines f ++ [[]]
        ++ (basePairs f ++ optPairs f).map (fun p => fieldLine p.1 p.2) := by
  have hsufNL : ∀ a ∈ suffixLine, a ≠ '\n' := by decide
  have hdl : ∀ a ∈ f.domain ++ suffixLine, a ≠ '\n' := by
    intro a ha
    rcases List.mem_append.mp ha with ha | ha
    · exact mem_ne_of_not_mem hdomNL a ha
    · exact hsufNL a ha
  have hkUri : ∀ a ∈ uriKey, a ≠ '\n' := by decide
  have hkVer : ∀ a ∈ versionKey, a ≠ '\n' := by decide
  have hkAid : ∀ a ∈ agentIdKey, a ≠ '\n' := by decide
  have hkReg : ∀ a ∈ registryKey, a ≠ '\n' := by decide
  have hkCid : ∀ a ∈ chainIdKey, a ≠ '\n' := by decide
  have hkNon : ∀ a ∈ nonceKey, a ≠ '\n' := by decide
  have hkIss : ∀ a ∈ issuedAtKey, a ≠ '\n' := by decide
  have hkExp : ∀ a ∈ expirationKey, a ≠ '\n' := by decide
  have hkNbf : ∀ a ∈ notBeforeKey, a ≠ '\n' := by decide
  have hkRid : ∀ a ∈ requestIdKey, a ≠ '\n' := by decide
  have hFL : ∀ l ∈ (basePairs f ++ optPairs f).map (fun p => fieldLine p.1 p.2),
      ∀ a ∈ l, a ≠ '\n' := by
    intro l hl
    obtain ⟨p, hp, rfl⟩ := List.mem_map.mp hl
    have hkv : (∀ a ∈ p.1, a ≠ '\n') ∧ (∀ a ∈ p.2, a ≠ '\n') := by
      rcases List.mem_append.mp hp with hb | ho
      · simp only [basePairs, List.mem_cons] at hb
        rcases hb with rfl | rfl | rfl | rfl | rfl | rfl | rfl | hb
        · exact ⟨hkUri, mem_ne_of_not_mem huri⟩
        · exact ⟨hkVer, mem_ne_of_not_mem hver⟩
        · exact ⟨hkAid, natToStr_no_newline f.agent_id⟩
        · exact ⟨hkReg, mem_ne_of_not_mem hreg⟩
        · exact ⟨hkCid, natToStr_no_newline f.chain_id⟩
        · exact ⟨hkNon, mem_ne_of_not_mem hnon⟩
        · exact ⟨hkIss, mem_ne_of_not_mem hiss⟩
        · simp at hb
      · simp only [optPairs, List.mem_append] at ho
        rcases ho with (ho | ho) | ho
        · revert ho
          cases he : optTruthy f.expiration_time with
          | none => simp
          | some e =>
            intro ho
            simp only [List.mem_singleton] at ho
            subst ho
            exact ⟨hkExp, mem_ne_of_not_mem (hexp e he)⟩
        · revert ho
          cases he : optTruthy f.not_before with
          | none => simp
          | some e =>
            intro ho
            simp only [List.mem_singleton] at ho
            subst ho
            exact ⟨hkNbf, mem_ne_of_not_mem (hnbf e he)⟩
        · revert ho
          cases he : optTruthy f.request_id with
          | none => simp
          | some e =>
            intro ho
            simp only [List.mem_singleton] at ho
            subst ho
            exact ⟨hkRid, mem_ne_of_not_mem (hrid e he)⟩
    exact fieldLine_noNL _ _ hkv.1 hkv.2
  have h1 : (List.map (splitOnChar '\n') [f.domain ++ suffixLine, addr, []]).flatten
      = [f.domain ++ suffixLine, addr, []] := by
    refine flatten_split _ ?_
    intro l hl
    simp only [List.mem_cons] at hl
    rcases hl with rfl | rfl | rfl | hl
    · exact hdl
    · exact mem_ne_of_not_mem haddrNL
    · simp
    · simp at hl
  have h2 : (List.map (splitOnChar '\n')
        (match optTruthy f.statement with | some s => [s] | none => [])).flatten
      = stmtLines f := by
    cases hs : optTruthy f.statement <;> simp [stmtLines, hs]
  have h3 : (List.map (splitOnChar '\n') ([[]] : List Str)).flatten = [[]] := by
    simp [splitOnChar]
  unfold buildStr
  rw [buildLineList_pairs]
  generalize hFLd : (basePairs f ++ optPairs f).map (fun p => fieldLine p.1 p.2) = FLl
  rw [hFLd] at hFL
  rw [splitOnChar_joinWith _ _ (by simp)]
  simp only [List.map_append, List.flatten_append]
  rw [h1, h2, h3, flatten_split FLl hFL]

theorem goLines_cons (i : Nat) (l : Str) (ls : List Str) (st : PState) :
    goLines i (l :: ls) st = goLines (i + 1) ls (stepLine i l st) := rfl

theorem goLines_main (f : SIWAMessageFields)
    (hstmt : ∀ s, optTruthy f.statement = some s →
      ∀ l ∈ splitOnChar '\n' s, l ≠ [] ∧ List.isPrefixOf uriLinePre l = false) :
    goLines 2
        ([] :: (stmtLines f
          ++ [] :: (basePairs f ++ optPairs f).map (fun p => fieldLine p.1 p.2)))
        initPState
      = { fmap := (basePairs f ++ optPairs f).reverse
          statement := stmtVal f
          inStmt := false
          stmtLines := stmtLines f } := by
  have hS : ∀ l ∈ stmtLines f, l ≠ [] ∧ List.isPrefixOf uriLinePre l = false := by
    intro l hl
    unfold stmtLines at hl
    revert hl
    cases hs : optTruthy f.statement with
    | none => simp
    | some s => exact fun hl => hstmt s hs l hl
  have hcUri : ':' ∉ uriKey := by decide
  have hcVer : ':' ∉ versionKey := by decide
  have hcAid : ':' ∉ agentIdKey := by decide
  have hcReg : ':' ∉ registryKey := by decide
  have hcCid : ':' ∉ chainIdKey := by decide
  have hcNon : ':' ∉ nonceKey := by decide
  have hcIss : ':' ∉ issuedAtKey := by decide
  have hcExp : ':' ∉ expirationKey := by decide
  have hcNbf : ':' ∉ notBeforeKey := by decide
  have hcRid : ':' ∉ requestIdKey := by decide
  have hkeys : ∀ p ∈ basePairs f ++ optPairs f, ':' ∉ p.1 := by
    intro p hp
    rcases List.mem_append.mp hp with hb | ho
    · simp only [basePairs, List.mem_cons] at hb
      rcases hb with rfl | rfl | rfl | rfl | rfl | rfl | rfl | hb
      · exact hcUri
      · exact hcVer
      · exact hcAid
      · exact hcReg
      · exact hcCid
      · exact hcNon
      · exact hcIss
      · simp at hb
    · simp only [optPairs, List.mem_append] at ho
      rcases ho with (ho | ho) | ho
      · revert ho
        cases he : optTruthy f.expiration_time with
        | none => simp
        | some e =>
          intro ho
          simp only [List.mem_singleton] at ho
          subst ho
          exact hcExp
      · revert ho
        cases he : optTruthy f.not_before with
        | none => simp
        | some e =>
          intro ho
          simp only [List.mem_singleton] at ho
          subst ho
          exact hcNbf
      · revert ho
        cases he : optTruthy f.request_id with
        | none => simp
        | some e =>
          intro ho
          simp only [List.mem_singleton] at ho
          subst ho
          exact hcRid
  have hstv : strOrNone (pyStrip (joinWith '\n' (stmtLines f))) = stmtVal f := by
    unfold stmtLines stmtVal
    cases hs : optTruthy f.statement with
    | none => simp [joinWith, pyStrip, strOrNone]
    | some s => rw [joinWith_splitOnChar]
  rw [goLines_cons]
  rw [stepLine_i2_blank]
  rw [goLines_append (stmtLines f) _ 3 _]
  rw [goLines_stmt _ _ _ hS rfl]
  rw [goLines_cons]
  rw [stepLine_blank_exit _ _ (by omega) rfl]
  rw [goLines_fieldBlock _ _ _ hkeys rfl]
  simp only [List.nil_append, List.append_nil, initPState]
  rw [hstv]

theorem dfind_pairs_uri (f : SIWAMessageFields) :
    dfind ((basePairs f ++ optPairs f).reverse) uriKey = some f.uri := by
  cases he : optTruthy f.expiration_time <;> cases hn : optTruthy f.not_before <;>
    cases hr : optTruthy f.request_id <;>
    simp only [basePairs, optPairs, he, hn, hr] <;> rfl

theorem dfind_pairs_version (f : SIWAMessageFields) :
    dfind ((basePairs f ++ optPairs f).reverse) versionKey = some f.version := by
  cases he : optTruthy f.expiration_time <;> cases hn : optTruthy f.not_before <;>
    cases hr : optTruthy f.request_id <;>
    simp only [basePairs, optPairs, he, hn, hr] <;> rfl

theorem dfind_pairs_agentId (f : SIWAMessageFields) :
    dfind ((basePairs f ++ optPairs f).reverse) agentIdKey = some (natToStr f.agent_id) := by
  cases he : optTruthy f.expiration_time <;> cases hn : optTruthy f.not_before <;>
    cases hr : optTruthy f.request_id <;>
    simp only [basePairs, optPairs, he, hn, hr] <;> rfl

theorem dfind_pairs_registry (f : SIWAMessageFields) :
    dfind ((basePairs f ++ optPairs f).reverse) registryKey = some f.agent_registry := by
  cases he : optTruthy f.expiration_time <;> cases hn : optTruthy f.not_before <;>
    cases hr : optTruthy f.request_id <;>
    simp only [basePairs, optPairs, he, hn, hr] <;> rfl

theorem dfind_pairs_chainId (f : SIWAMessageFields) :
    dfind ((basePairs f ++ optPairs f).reverse) chainIdKey = some (natToStr f.chain_id) := by
  cases he : optTruthy f.expiration_time <;> cases hn : optTruthy f.not_before <;>
    cases hr : optTruthy f.request_id <;>
    simp only [basePairs, optPairs, he, hn, hr] <;> rfl

theorem dfind_pairs_nonce (f : SIWAMessageFields) :
    dfind ((basePairs f ++ optPairs f).reverse) nonceKey = some f.nonce := by
  cases he : optTruthy f.expiration_time <;> cases hn : optTruthy f.not_before <;>
    cases hr : optTruthy f.request_id <;>
    simp only [basePairs, optPairs, he, hn, hr] <;> rfl

theorem dfind_pairs_issuedAt (f : SIWAMessageFields) :
    dfind ((basePairs f ++ optPairs f).reverse) issuedAtKey = some f.issued_at := by
  cases he : optTruthy f.expiration_time <;> cases hn : optTruthy f.not_before <;>
    cases hr : optTruthy f.request_id <;>
    simp only [basePairs, optPairs, he, hn, hr] <;> rfl

theorem dfind_pairs_expiration (f : SIWAMessageFields) :
    dfind ((basePairs f ++ optPairs f).reverse) expirationKey = optTruthy f.expiration_time := by
  cases he : optTruthy f.expiration_time <;> cases hn : optTruthy f.not_before <;>
    cases hr : optTruthy f.request_id <;>
    simp only [basePairs, optPairs, he, hn, hr] <;> rfl

theorem dfind_pairs_notBefore (f : SIWAMessageFields) :
    dfind ((basePairs f ++ optPairs f).reverse) notBeforeKey = optTruthy f.not_before := by
  cases he : optTruthy f.expiration_time <;> cases hn : optTruthy f.not_before <;>
    cases hr : optTruthy f.request_id <;>
    simp only [basePairs, optPairs, he, hn, hr] <;> rfl

theorem dfind_pairs_requestId (f : SIWAMessageFields) :
    dfind ((basePairs f ++ optPairs f).reverse) requestIdKey = optTruthy f.request_id := by
  cases he : optTruthy f.expiration_time <;> cases hn : optTruthy f.not_before <;>
    cases hr : optTruthy f.request_id <;>
    simp only [basePairs, optPairs, he, hn, hr] <;> rfl

theorem stmtVal_normalize (f : SIWAMessageFields) :
    stmtVal f = (normalizeFields f).statement := by
  unfold stmtVal normalizeFields optTruthy strOrNone
  cases f.statement with
  | none => rfl
  | some s =>
    by_cases hs : s = []
    · subst hs
      simp [pyStrip, strOrNone]
    · simp [hs]

theorem parse_build_roundtrip (f : SIWAMessageFields) (addr : Str)
    (haddr : f.address = some addr)
    (h0x : List.isPrefixOf hexPre addr = true)
    (h42 : addr.length = 42)
    (haddrNL : '\n' ∉ addr)
    (hdom : f.domain ≠ []) (hdomNL : '\n' ∉ f.domain)
    (huri : '\n' ∉ f.uri) (hver : '\n' ∉ f.version) (hreg : '\n' ∉ f.agent_registry)
    (hnon : '\n' ∉ f.nonce) (hiss : '\n' ∉ f.issued_at)
    (hstmt : ∀ s, optTruthy f.statement = some s →
      ∀ l ∈ splitOnChar '\n' s, l ≠ [] ∧ List.isPrefixOf uriLinePre l = false)
    (hexp : ∀ e, optTruthy f.expiration_time = some e → '\n' ∉ e)
    (hnbf : ∀ e, optTruthy f.not_before = some e → '\n' ∉ e)
    (hrid : ∀ e, optTruthy f.request_id = some e → '\n' ∉ e) :
    parse_siwa_message (buildStr f addr) = .ok (normalizeFields f) := by
  have hlines := buildStr_split f addr haddrNL hdomNL huri hver hreg hnon hiss hexp hnbf hrid
  have haddrne : addr ≠ [] := by
    intro h
    rw [h] at h42
    simp at h42
  unfold parse_siwa_message
  rw [hlines]
  simp only [List.append_assoc, List.cons_append, List.nil_append]
  rw [show ((f.domain ++ suffixLine)
      :: addr :: [] :: (stmtLines f ++ [] ::
        (basePairs f ++ optPairs f).map (fun p => fieldLine p.1 p.2))).headD []
    = f.domain ++ suffixLine from rfl]
  rw [matchDomain_build f.domain hdom]
  simp only [List.getElem?_cons_succ, List.getElem?_cons_zero, List.drop_succ_cons,
    List.drop_zero]
  rw [if_neg (by simp [haddrne, h0x, h42])]
  rw [goLines_main f hstmt]
  simp only [dgetD, dfind_pairs_uri, dfind_pairs_version, dfind_pairs_agentId,
    dfind_pairs_registry, dfind_pairs_chainId, dfind_pairs_nonce, dfind_pairs_issuedAt,
    dfind_pairs_expiration, dfind_pairs_notBefore, dfind_pairs_requestId,
    Option.getD_some]
  rw [parseNat_natToStr, parseNat_natToStr]
  rw [stmtVal_normalize]
  simp only [normalizeFields, haddr]

set_option maxRecDepth 40000 in
/-- Claim C1 is false as stated: for the fields `c1CexFields`, whose
statement is the non-empty blank-line-free text `URI: x`,
`parse_siwa_message (build_siwa_message f)` yields `statement = none`
although the trimmed statement is the non-empty `URI: x` (the parser
mistakes the statement line for the `URI` field line and drops it). -/
theorem claim_C1_counterexample :
    (build_siwa_message c1CexFields).bind parse_siwa_message
      = .ok { c1CexFields with statement := none }
    ∧ c1CexFields.statement = some ("URI: x".toList)
    ∧ strOrNone (pyStrip ("URI: x".toList)) = some ("URI: x".toList) := by
  decide

/-- Claim C1 (amended): `parse_siwa_message (build_siwa_message f)`
reproduces every field of `f` — with the statement trimmed of
leading/trailing whitespace and collapsing to absent when empty, and
present-but-empty optional fields collapsing to absent — provided the
fields are well formed: the domain is non-empty, the address starts
with `0x` and is 42 characters, no single-line field embeds a newline,
every line of the statement is non-blank and does not begin with
`URI: `, and present optional fields do not embed newlines. -/
theorem claim_C1_roundtrip (f : SIWAMessageFields) (addr msg : Str)
    (haddr : f.address = some addr)
    (hb : build_siwa_message f = .ok msg)
    (h0x : List.isPrefixOf hexPre addr = true)
    (h42 : addr.length = 42)
    (haddrNL : '\n' ∉ addr)
    (hdom : f.domain ≠ []) (hdomNL : '\n' ∉ f.domain)
    (huri : '\n' ∉ f.uri) (hver : '\n' ∉ f.version) (hreg : '\n' ∉ f.agent_registry)
    (hnon : '\n' ∉ f.nonce) (hiss : '\n' ∉ f.issued_at)
    (hstmt : ∀ s, optTruthy f.statement = some s →
      ∀ l ∈ splitOnChar '\n' s, l ≠ [] ∧ List.isPrefixOf uriLinePre l = false)
    (hexp : ∀ e, optTruthy f.expiration_time = some e → '\n' ∉ e)
    (hnbf : ∀ e, optTruthy f.not_before = some e → '\n' ∉ e)
    (hrid : ∀ e, optTruthy f.request_id = some e → '\n' ∉ e) :
    parse_siwa_message msg = .ok (normalizeFields f) := by
  have hmsg : msg = buildStr f addr := by
    unfold build_siwa_message at hb
    rw [haddr] at hb
    cases hb
    rfl
  subst hmsg
  exact parse_build_roundtrip f addr haddr h0x h42 haddrNL hdom hdomNL huri hver
    hreg hnon hiss hstmt hexp hnbf hrid

set_option maxRecDepth 40000 in
/-- Witness for claim C1: the amended round-trip instantiated at
`c1WitFields`, discharging every hypothesis concretely. -/
theorem claim_C1_witness :
    parse_siwa_message (buildStr c1WitFields
        ("0xABCDEF1234567890ABCDEF1234567890ABCDEF12".toList))
      = .ok (normalizeFields c1WitFields) := by
  exact claim_C1_roundtrip c1WitFields
    ("0xABCDEF1234567890ABCDEF1234567890ABCDEF12".toList)
    (buildStr c1WitFields ("0xABCDEF1234567890ABCDEF1234567890ABCDEF12".toList))
    (by decide) rfl (by decide) (by decide) (by decide) (by decide) (by decide)
    (by decide) (by decide) (by decide) (by decide) (by decide) (by decide)
    (by decide) (by decide) (by decide)

/-- Claim C5: the second and third conjuncts confirm that a present but
malformed second line raises the `ValueError` format error; the first
conjunct shows the divergence: a message with no second line at all
raises `IndexError` from `lines[1]`, not the documented `ValueError`. -/
theorem claim_C5_address_guard :
    parse_siwa_message c5SingleLine = .error .indexError
    ∧ parse_siwa_message (c5SingleLine ++ '\n' :: ("0x1234".toList))
      = .error (.valueError ("Invalid SIWA message: missing or malformed address".toList))
    ∧ parse_siwa_message (c5SingleLine ++ '\n' :: ("not-an-address".toList))
      = .error (.valueError ("Invalid SIWA message: missing or malformed address".toList))
    ∧ parse_siwa_message (c5SingleLine ++ ['\n'])
      = .error (.valueError ("Invalid SIWA message: missing or malformed address".toList)) := by
  decide

theorem sign_skips_empty_address (f : SIWAMessageFields) (s : SignerM)
    (h : f.address = some []) :
    sign_siwa_message f s
      = .ok { message := buildStr { f with address := some s.address } s.address
              signature := s.sign (buildStr { f with address := some s.address } s.address)
              address := s.address } := by
  unfold sign_siwa_message
  rw [h]
  simp [optTruthy, strOrNone, build_siwa_message]

/-- Claim C10: when `fields.address` is present but the empty string,
the truthiness guard `if fields.get("address") and ...` skips the
mismatch check entirely, so signing succeeds and returns the signer's
resolved address. -/
theorem claim_C10_empty_address (f : SIWAMessageFields) (s : SignerM)
    (h : f.address = some []) :
    sign_siwa_message f s
      = .ok { message := buildStr { f with address := some s.address } s.address
              signature := s.sign (buildStr { f with address := some s.address } s.address)
              address := s.address } :=
  sign_skips_empty_address f s h

/-- Witness for claim C10 at a concrete fields/signer pair. -/
theorem claim_C10_witness :
    sign_siwa_message c10Fields c10Signer
      = .ok { message := buildStr { c10Fields with address := some c10Signer.address }
                  c10Signer.address
              signature := c10Signer.sign
                (buildStr { c10Fields with address := some c10Signer.address }
                  c10Signer.address)
              address := c10Signer.address } :=
  claim_C10_empty_address c10Fields c10Signer rfl

/-- Claim C6 is false as stated: for `c10Fields`-like fields whose
address is present (`some ""`) and case-insensitively different from
the signer's non-empty resolved address, `sign_siwa_message` does not
raise an address-mismatch error but succeeds. -/
theorem claim_C6_counterexample :
    c10Fields.address = some []
    ∧ pyLower ([] : Str) ≠ pyLower c10Signer.address
    ∧ sign_siwa_message c10Fields c10Signer
      = .ok { message := buildStr { c10Fields with address := some c10Signer.address }
                  c10Signer.address
              signature := ("0xsignature".toList)
              address := c10Signer.address } := by
  refine ⟨rfl, by decide, ?_⟩
  exact sign_skips_empty_address c10Fields c10Signer rfl

/-- Claim C6 (amended): the address-mismatch guard of
`sign_siwa_message` fires only for a present and *non-empty*
`fields.address` that case-insensitively differs from the signer's
resolved address; when `fields.address` is absent, empty, or
case-insensitively equal, signing succeeds, the returned address is
the signer's resolved address, and the returned message is
`build_siwa_message` of the fields with the resolved address
substituted. -/
theorem claim_C6_signer_authority (f : SIWAMessageFields) (s : SignerM) :
    (∀ a, f.address = some a → a ≠ [] → pyLower s.address ≠ pyLower a →
      ∃ m, sign_siwa_message f s = .error (.valueError m))
    ∧ ((f.address = none ∨ f.address = some []
        ∨ (∃ a, f.address = some a ∧ pyLower a = pyLower s.address)) →
      sign_siwa_message f s
        = .ok { message := buildStr { f with address := some s.address } s.address
                signature := s.sign (buildStr { f with address := some s.address } s.address)
                address := s.address }) := by
  constructor
  · intro a ha hane hne
    have heq : sign_siwa_message f s
        = .error (.valueError (("Address mismatch: signer has ".toList) ++ s.address
            ++ (", message claims ".toList) ++ a)) := by
      unfold sign_siwa_message
      rw [ha]
      simp only [optTruthy, strOrNone, if_neg hane]
      rw [if_pos hne]
    exact ⟨_, heq⟩
  · intro h
    rcases h with h | h | ⟨a, ha, heq⟩
    · unfold sign_siwa_message
      rw [h]
      simp [optTruthy, build_siwa_message]
    · exact sign_skips_empty_address f s h
    · unfold sign_siwa_message
      rw [ha]
      by_cases hane : a = []
      · subst hane
        simp [optTruthy, strOrNone, build_siwa_message]
      · simp only [optTruthy, strOrNone, if_neg hane]
        rw [if_neg (fun hne => hne heq.symm)]
        simp [build_siwa_message]

/-- Witness for claim C6: both branches of the amended claim at
concrete inputs — a non-empty mismatching address yields an error, and
an absent address succeeds with the signer's resolved address. -/
theorem claim_C6_witness :
    (∃ m, sign_siwa_message c6Fields c10Signer = .error (.valueError m))
    ∧ sign_siwa_message { c10Fields with address := none } c10Signer
      = .ok { message := buildStr
                { c10Fields with address := some c10Signer.address } c10Signer.address
              signature := c10Signer.sign (buildStr
                { c10Fields with address := some c10Signer.address } c10Signer.address)
              address := c10Signer.address } := by
  constructor
  · exact (claim_C6_signer_authority c6Fields c10Signer).1 _ rfl (by decide) (by decide)
  · exact (claim_C6_signer_authority { c10Fields with address := none } c10Signer).2
      (Or.inl rfl)

theorem onchainStage_ok_meta (env : VerifyEnv) (f : SIWAMessageFields)
    (addr recovered : Str) (reg : Option Str) (r : SIWAVerificationResult)
    (h : onchainStage env f addr recovered reg = .ok r) :
    r.verified = .onchain ∧ r.code ≠ some .MESSAGE_EXPIRED
    ∧ r.code ≠ some .MESSAGE_NOT_YET_VALID ∧ r.code ≠ some .VERIFICATION_FAILED := by
  unfold onchainStage at h
  repeat' split at h
  all_goals try (simp only [Except.ok.injEq] at h)
  all_goals (cases h <;> simp [failRes])

theorem afterExpStage_ok_meta (env : VerifyEnv) (f : SIWAMessageFields)
    (addr recovered : Str) (reg : Option Str) (r : SIWAVerificationResult)
    (h : afterExpStage env f addr recovered reg = .ok r) :
    r.verified = .onchain ∧ r.code ≠ some .MESSAGE_EXPIRED
    ∧ r.code ≠ some .VERIFICATION_FAILED := by
  unfold afterExpStage at h
  repeat' split at h
  all_goals try (simp only [Except.ok.injEq] at h)
  all_goals first
    | (cases h <;> simp [failRes])
    | (obtain ⟨h1, h2, h3, h4⟩ := onchainStage_ok_meta _ _ _ _ _ _ h
       exact ⟨h1, h2, h4⟩)

theorem timeStage_ok_meta (env : VerifyEnv) (f : SIWAMessageFields)
    (addr recovered : Str) (reg : Option Str) (r : SIWAVerificationResult)
    (h : timeStage env f addr recovered reg = .ok r) :
    r.verified = .onchain ∧ r.code ≠ some .VERIFICATION_FAILED := by
  unfold timeStage at h
  repeat' split at h
  all_goals try (simp only [Except.ok.injEq] at h)
  all_goals first
    | (cases h <;> simp [failRes])
    | (obtain ⟨h1, h2, h3⟩ := afterExpStage_ok_meta _ _ _ _ _ _ h
       exact ⟨h1, h3⟩)

theorem verifyCore_ok_meta (env : VerifyEnv) (message expected_domain : Str)
    (nv : Str → Bool) (reg : Option Str) (r : SIWAVerificationResult)
    (h : verifyCore env message expected_domain nv reg = .ok r) :
    r.verified = .onchain ∧ r.code ≠ some .VERIFICATION_FAILED := by
  unfold verifyCore at h
  repeat' split at h
  all_goals try (simp only [Except.ok.injEq] at h)
  all_goals first
    | (cases h <;> simp [failRes])
    | exact timeStage_ok_meta _ _ _ _ _ _ h

set_option maxRecDepth 40000 in
/-- Claim C2 is false as stated: an invalid-signature failure occurs
before any chain call, yet the result built by the `fail` helper
carries `verified = "onchain"`, not `"offline"`. -/
theorem claim_C2_counterexample :
    (verify_siwa c2CexEnv exVerifyMsg ("service.example".toList)
        (fun _ => true) none).code = some .INVALID_SIGNATURE
    ∧ (verify_siwa c2CexEnv exVerifyMsg ("service.example".toList)
        (fun _ => true) none).verified = .onchain := by
  decide

/-- Claim C2 (amended): the `fail` helper hardcodes
`verified = "onchain"`, so every result the pipeline body produces —
pre-chain failures included — has `verified = "onchain"`;
`verified = "offline"` appears exactly on the results built by the
outer exception handler (code `VERIFICATION_FAILED`). -/
theorem claim_C2_verified_tag (env : VerifyEnv) (msg dom : Str)
    (nv : Str → Bool) (reg : Option Str) :
    (∀ r, verifyCore env msg dom nv reg = .ok r → r.verified = .onchain)
    ∧ (∀ e, verifyCore env msg dom nv reg = .error e →
        verify_siwa env msg dom nv reg = catchAllResult e)
    ∧ ((verify_siwa env msg dom nv reg).verified = .offline ↔
        ∃ e, verifyCore env msg dom nv reg = .error e) := by
  refine ⟨fun r h => (verifyCore_ok_meta _ _ _ _ _ _ h).1, fun e h => ?_, ?_⟩
  · unfold verify_siwa
    rw [h]
  · cases hc : verifyCore env msg dom nv reg with
    | ok r =>
      have hv := (verifyCore_ok_meta _ _ _ _ _ _ hc).1
      have hvr : verify_siwa env msg dom nv reg = r := by
        unfold verify_siwa
        rw [hc]
      rw [hvr]
      constructor
      · intro hoff
        rw [hv] at hoff
        cases hoff
      · rintro ⟨e, he⟩
        cases he
    | error e =>
      have hvr : verify_siwa env msg dom nv reg = catchAllResult e := by
        unfold verify_siwa
        rw [hc]
      rw [hvr]
      exact ⟨fun _ => ⟨e, rfl⟩, fun _ => rfl⟩

set_option maxRecDepth 40000 in
/-- Witness for claim C2: the pipeline-body half instantiated at a
concrete run whose signature recovery fails. -/
theorem claim_C2_witness :
    (failRes exVerifyFields .INVALID_SIGNATURE ("Invalid signature".toList)).verified
      = .onchain :=
  (claim_C2_verified_tag c2CexEnv exVerifyMsg ("service.example".toList)
      (fun _ => true) none).1 _ (by decide)

/-- Claim C3: the pipeline is total — the only way a result leaves the
`try` body is as a value, and every modelled exception (the parse
`FormatError` included) is converted by the outer handler into
`valid = false`, `code = VERIFICATION_FAILED`, `verified = "offline"`. -/
theorem claim_C3_total (env : VerifyEnv) (msg dom : Str)
    (nv : Str → Bool) (reg : Option Str) :
    (∀ e, verifyCore env msg dom nv reg = .error e →
      verify_siwa env msg dom nv reg = catchAllResult e)
    ∧ (∀ e, parse_siwa_message msg = .error e →
      verify_siwa env msg dom nv reg = catchAllResult e)
    ∧ (∀ e, (catchAllResult e).valid = false
        ∧ (catchAllResult e).code = some .VERIFICATION_FAILED
        ∧ (catchAllResult e).verified = .offline) := by
  refine ⟨fun e h => ?_, fun e h => ?_, fun e => ⟨rfl, rfl, rfl⟩⟩
  · unfold verify_siwa
    rw [h]
  · have hc : verifyCore env msg dom nv reg = .error e := by
      unfold verifyCore
      rw [h]
    unfold verify_siwa
    rw [hc]

set_option maxRecDepth 40000 in
/-- Witness for claim C3: an unparseable one-line message makes the
whole verification fail offline with `VERIFICATION_FAILED`. -/
theorem claim_C3_witness :
    verify_siwa c2CexEnv c5SingleLine ("example.com".toList) (fun _ => true) none
      = catchAllResult .indexError :=
  (claim_C3_total c2CexEnv c5SingleLine ("example.com".toList)
      (fun _ => true) none).2.1 .indexError (by decide)

/-- Claim C4: if the message parses, the signature recovers to the
embedded address, and the domain mismatches, the result is
`DOMAIN_MISMATCH` and the nonce validator is never consulted — the
result is identical for every validator, in particular for one that
reports the nonce as already consumed. -/
theorem claim_C4_domain_before_nonce (env : VerifyEnv) (msg dom : Str)
    (reg : Option Str) (f : SIWAMessageFields) (addr rec : Str)
    (hp : parse_siwa_message msg = .ok f) (ha : f.address = some addr)
    (hr : env.recover = .ok rec) (hm : pyLower rec = pyLower addr)
    (hd : f.domain ≠ dom) :
    ∀ nv nv' : Str → Bool,
      verify_siwa env msg dom nv reg = verify_siwa env msg dom nv' reg
      ∧ (verify_siwa env msg dom nv reg).code = some .DOMAIN_MISMATCH := by
  have hcore : ∀ nv : Str → Bool, verifyCore env msg dom nv reg
      = .ok (failRes f .DOMAIN_MISMATCH
          (("Domain mismatch: expected ".toList) ++ dom
            ++ (", got ".toList) ++ f.domain)) := by
    intro nv
    unfold verifyCore
    simp [hp, hr, ha, hm, hd]
  intro nv nv'
  unfold verify_siwa
  rw [hcore nv, hcore nv']
  exact ⟨rfl, rfl⟩

set_option maxRecDepth 40000 in
/-- Witness for claim C4: a wrong domain together with an
already-consumed nonce (validator constantly `false`) yields
`DOMAIN_MISMATCH`, and the result equals the one for a fresh nonce. -/
theorem claim_C4_witness :
    verify_siwa c4Env exVerifyMsg ("other.example".toList) (fun _ => false) none
      = verify_siwa c4Env exVerifyMsg ("other.example".toList) (fun _ => true) none
    ∧ (verify_siwa c4Env exVerifyMsg ("other.example".toList)
        (fun _ => false) none).code = some .DOMAIN_MISMATCH :=
  claim_C4_domain_before_nonce c4Env exVerifyMsg ("other.example".toList) none
    exVerifyFields exVerifyAddr exVerifyAddr (by decide) (by decide) (by decide)
    (by decide) (by decide) (fun _ => false) (fun _ => true)

theorem verifyCore_reaches_time (env : VerifyEnv) (msg dom : Str)
    (nv : Str → Bool) (reg : Option Str) (f : SIWAMessageFields) (addr rec : Str)
    (hp : parse_siwa_message msg = .ok f) (ha : f.address = some addr)
    (hr : env.recover = .ok rec) (hm : pyLower rec = pyLower addr)
    (hd : f.domain = dom) (hn : nv f.nonce = true) :
    verifyCore env msg dom nv reg = timeStage env f addr rec reg := by
  unfold verifyCore
  simp [hp, hr, ha, hm, hd, hn]

/-- Claim C7: at the time-window stage, `MESSAGE_EXPIRED` is returned
exactly when the current time is strictly greater than the parsed
expiration time (equality passes), and `MESSAGE_NOT_YET_VALID` exactly
when the current time is strictly less than the parsed `not_before`
(given the expiration check passes); timestamps are fed to the RFC 3339
parser after replacing `Z` with `+00:00` (`zNorm`). -/
theorem claim_C7_time_window (env : VerifyEnv) (msg dom : Str)
    (nv : Str → Bool) (reg : Option Str) (f : SIWAMessageFields) (addr rec : Str)
    (hp : parse_siwa_message msg = .ok f) (ha : f.address = some addr)
    (hr : env.recover = .ok rec) (hm : pyLower rec = pyLower addr)
    (hd : f.domain = dom) (hn : nv f.nonce = true) :
    (∀ et texp, optTruthy f.expiration_time = some et →
      env.fromiso (zNorm et) = some texp →
      ((verify_siwa env msg dom nv reg).code = some .MESSAGE_EXPIRED
        ↔ texp < env.now))
    ∧ (∀ nb tnb, optTruthy f.not_before = some nb →
      env.fromiso (zNorm nb) = some tnb → expOkP env f →
      ((verify_siwa env msg dom nv reg).code = some .MESSAGE_NOT_YET_VALID
        ↔ env.now < tnb)) := by
  have hcore := verifyCore_reaches_time env msg dom nv reg f addr rec hp ha hr hm hd hn
  constructor
  · intro et texp he hf
    by_cases hlt : texp < env.now
    · have hc : verifyCore env msg dom nv reg
          = .ok (failRes f .MESSAGE_EXPIRED ("Message expired".toList)) := by
        rw [hcore]
        unfold timeStage
        simp only [he, hf, if_pos hlt]
      have hv : verify_siwa env msg dom nv reg
          = failRes f .MESSAGE_EXPIRED ("Message expired".toList) := by
        unfold verify_siwa
        rw [hc]
      rw [hv]
      exact iff_of_true rfl hlt
    · have hts : timeStage env f addr rec reg = afterExpStage env f addr rec reg := by
        unfold timeStage
        simp only [he, hf, if_neg hlt]
      cases haf : afterExpStage env f addr rec reg with
      | ok r =>
        have hprops := afterExpStage_ok_meta _ _ _ _ _ _ haf
        have hv : verify_siwa env msg dom nv reg = r := by
          unfold verify_siwa
          rw [hcore, hts, haf]
        rw [hv]
        exact iff_of_false hprops.2.1 hlt
      | error e =>
        have hv : verify_siwa env msg dom nv reg = catchAllResult e := by
          unfold verify_siwa
          rw [hcore, hts, haf]
        rw [hv]
        exact iff_of_false (by simp [catchAllResult]) hlt
  · intro nb tnb hnb hfn hok
    have hts : timeStage env f addr rec reg = afterExpStage env f addr rec reg := by
      unfold timeStage
      cases he' : optTruthy f.expiration_time with
      | none => rfl
      | some et =>
        obtain ⟨t, ht, hnot⟩ := hok et he'
        simp only [ht, if_neg hnot]
    have haf : afterExpStage env f addr rec reg
        = (if env.now < tnb then
            .ok (failRes f .MESSAGE_NOT_YET_VALID
              ("Message not yet valid (not_before)".toList))
          else onchainStage env f addr rec reg) := by
      unfold afterExpStage
      simp only [hnb, hfn]
    by_cases hlt : env.now < tnb
    · have hv : verify_siwa env msg dom nv reg
          = failRes f .MESSAGE_NOT_YET_VALID
              ("Message not yet valid (not_before)".toList) := by
        unfold verify_siwa
        rw [hcore, hts, haf, if_pos hlt]
      rw [hv]
      exact iff_of_true rfl hlt
    · cases hoc : onchainStage env f addr rec reg with
      | ok r =>
        have hprops := onchainStage_ok_meta _ _ _ _ _ _ hoc
        have hv : verify_siwa env msg dom nv reg = r := by
          unfold verify_siwa
          rw [hcore, hts, haf, if_neg hlt, hoc]
        rw [hv]
        exact iff_of_false hprops.2.2.1 hlt
      | error e =>
        have hv : verify_siwa env msg dom nv reg = catchAllResult e := by
          unfold verify_siwa
          rw [hcore, hts, haf, if_neg hlt, hoc]
        rw [hv]
        exact iff_of_false (by simp [catchAllResult]) hlt

set_option maxRecDepth 40000 in
/-- Witness for claim C7: with the expiration parsing to time 50 and
the clock at 100, verification fails with `MESSAGE_EXPIRED`. -/
theorem claim_C7_witness :
    (verify_siwa c7Env c7Msg ("service.example".toList)
        (fun _ => true) none).code = some .MESSAGE_EXPIRED :=
  ((claim_C7_time_window c7Env c7Msg ("service.example".toList) (fun _ => true)
      none c7Fields exVerifyAddr exVerifyAddr (by decide) (by decide) (by decide)
      (by decide) (by decide) (by decide)).1
    ("2025-01-02T00:00:00Z".toList) 50 (by decide) (by decide)).mpr (by decide)

/-- Claim C9 is false as stated — and its amendment: once every stage
through on-chain ownership has passed, an error in the contract-code
lookup (`get_code` on the checksummed address) propagates to the outer
exception handler and fails the whole verification with
`VERIFICATION_FAILED`; only when the lookup succeeds is the
classification purely informational and the result `valid = true`. -/
theorem claim_C9_signer_type (env : VerifyEnv) (msg dom : Str) (nv : Str → Bool)
    (f : SIWAMessageFields) (addr rec p1 p2 caddr ow ca2 : Str)
    (hp : parse_siwa_message msg = .ok f) (ha : f.address = some addr)
    (hr : env.recover = .ok rec) (hm : pyLower rec = pyLower addr)
    (hd : f.domain = dom) (hn : nv f.nonce = true)
    (hexp : optTruthy f.expiration_time = none)
    (hnbf : optTruthy f.not_before = none)
    (hreg : splitOnChar ':' f.agent_registry = [("eip155".toList), p1, p2])
    (hchk : env.toChecksum p2 = .ok caddr)
    (hown : env.ownerOf caddr f.agent_id = .ok ow)
    (howeq : pyLower ow = pyLower rec)
    (hchk2 : env.toChecksum addr = .ok ca2) :
    (∀ e, env.getCode ca2 = .error e →
      verify_siwa env msg dom nv none = catchAllResult e)
    ∧ (∀ bytes, env.getCode ca2 = .ok bytes →
      (verify_siwa env msg dom nv none).valid = true
      ∧ (verify_siwa env msg dom nv none).signer_type
          = some (if bytes ≠ [] then SignerType.sca else SignerType.eoa)) := by
  have hcore := verifyCore_reaches_time env msg dom nv none f addr rec hp ha hr hm hd hn
  have hts : timeStage env f addr rec none = onchainStage env f addr rec none := by
    unfold timeStage afterExpStage
    simp only [hexp, hnbf]
  have hoc : onchainStage env f addr rec none
      = match env.getCode ca2 with
        | .error e => .error e
        | .ok bytes =>
          .ok { valid := true
                address := rec
                agent_id := f.agent_id
                agent_registry := f.agent_registry
                chain_id := f.chain_id
                verified := .onchain
                signer_type := some (if bytes ≠ [] then SignerType.sca else SignerType.eoa)
                code := none
                error := none } := by
    unfold onchainStage
    rw [if_neg (by simp [hreg])]
    simp only [hreg, optTruthy, List.getD_eq_getElem?_getD, List.getElem?_cons_succ,
      List.getElem?_cons_zero, Option.getD_some, Option.getD_none, hchk, hown]
    rw [if_neg (fun hne => hne howeq)]
    simp only [hchk2]
  constructor
  · intro e hgc
    have hc : verifyCore env msg dom nv none = .error e := by
      rw [hcore, hts, hoc, hgc]
    unfold verify_siwa
    rw [hc]
  · intro bytes hgc
    have hc : verifyCore env msg dom nv none
        = .ok { valid := true
                address := rec
                agent_id := f.agent_id
                agent_registry := f.agent_registry
                chain_id := f.chain_id
                verified := .onchain
                signer_type := some (if bytes ≠ [] then SignerType.sca else SignerType.eoa)
                code := none
                error := none } := by
      rw [hcore, hts, hoc, hgc]
    have hv : verify_siwa env msg dom nv none
        = { valid := true
            address := rec
            agent_id := f.agent_id
            agent_registry := f.agent_registry
            chain_id := f.chain_id
            verified := .onchain
            signer_type := some (if bytes ≠ [] then SignerType.sca else SignerType.eoa)
            code := none
            error := none } := by
      unfold verify_siwa
      rw [hc]
    rw [hv]
    exact ⟨rfl, rfl⟩

set_option maxRecDepth 40000 in
/-- Claim C9 is false as stated: with every stage through on-chain
ownership passing, an error in the contract-code lookup does cause the
verification to fail — `valid = false` with `VERIFICATION_FAILED` —
rather than leaving the result valid. -/
theorem claim_C9_counterexample :
    (verify_siwa c9EnvBad exVerifyMsg ("service.example".toList)
        (fun _ => true) none).valid = false
    ∧ (verify_siwa c9EnvBad exVerifyMsg ("service.example".toList)
        (fun _ => true) none).code = some .VERIFICATION_FAILED
    ∧ (verify_siwa c9EnvBad exVerifyMsg ("service.example".toList)
        (fun _ => true) none).verified = .offline := by
  decide

set_option maxRecDepth 40000 in
/-- Witness for claim C9: with a successful contract-code lookup
returning non-empty bytes, the result is valid and classified `sca`. -/
theorem claim_C9_witness :
    (verify_siwa c9EnvGood exVerifyMsg ("service.example".toList)
        (fun _ => true) none).valid = true
    ∧ (verify_siwa c9EnvGood exVerifyMsg ("service.example".toList)
        (fun _ => true) none).signer_type
      = some (if ([96] : List Nat) ≠ [] then SignerType.sca else SignerType.eoa) :=
  (claim_C9_signer_type c9EnvGood exVerifyMsg ("service.example".toList)
      (fun _ => true) exVerifyFields exVerifyAddr exVerifyAddr
      ("8453".toList) ("0x2222222222222222222222222222222222222222".toList)
      ("0x2222222222222222222222222222222222222222".toList)
      exVerifyAddr exVerifyAddr
      (by decide) (by decide) (by decide) (by decide) (by decide) (by decide)
      (by decide) (by decide) (by decide) (by decide) (by decide) (by decide)
      (by decide)).2 [96] (by decide)

/-- Claim C8 is false as stated: for a NOT_REGISTERED result whose
chain id is 0 (falsy) and whose second registry colon-part is not
numeric, `build_siwa_response` raises the `int()` `ValueError` instead
of returning a `not_registered` response. -/
theorem claim_C8_counterexample :
    build_siwa_response c8CexResult
      = .error (.valueError ("invalid literal for int".toList)) := by
  decide

/-- Claim C8 (amended): for every result with `valid = false` and
`code = NOT_REGISTERED`, provided the chain-id fallback is safe (the
result's chain id is non-zero, or the registry has fewer than two
colon-parts, or its second colon-part parses as an integer),
`build_siwa_response` returns a `not_registered` response whose action
has type `register`, the fixed six-step remediation list, the third
colon-part as registry address exactly when the registry splits into
three parts, and the result's chain id or, failing that (zero), the
parsed second colon-part. -/
theorem claim_C8_not_registered (r : SIWAVerificationResult)
    (hv : r.valid = false) (hc : r.code = some .NOT_REGISTERED)
    (hsafe : r.chain_id ≠ 0 ∨ (splitOnChar ':' r.agent_registry).length < 2
      ∨ ∃ n, parseNat ((splitOnChar ':' r.agent_registry).getD 1 []) = some n) :
    ∃ resp, build_siwa_response r = .ok resp
      ∧ resp.status = .not_registered
      ∧ ∃ act, resp.action = some act
        ∧ act.action_type = ("register".toList)
        ∧ act.steps = registerSteps
        ∧ registerSteps.length = 6
        ∧ act.registry_address
            = (if (splitOnChar ':' r.agent_registry).length = 3 then
                some ((splitOnChar ':' r.agent_registry).getD 2 [])
              else none)
        ∧ act.chain_id
            = (if r.chain_id ≠ 0 then some r.chain_id
              else if 2 ≤ (splitOnChar ':' r.agent_registry).length then
                parseNat ((splitOnChar ':' r.agent_registry).getD 1 [])
              else none) := by
  have hcid : respChainId r
      = .ok (if r.chain_id ≠ 0 then some r.chain_id
          else if 2 ≤ (splitOnChar ':' r.agent_registry).length then
            parseNat ((splitOnChar ':' r.agent_registry).getD 1 [])
          else none) := by
    unfold respChainId
    by_cases h0 : r.chain_id ≠ 0
    · rw [if_pos h0, if_pos h0]
    · rw [if_neg h0, if_neg h0]
      rcases hsafe with hs | hs | ⟨n, hn⟩
      · exact absurd hs h0
      · rw [if_neg (by omega), if_neg (by omega)]
      · by_cases hl : 2 ≤ (splitOnChar ':' r.agent_registry).length
        · rw [if_pos hl, if_pos hl]
          simp only [hn]
        · rw [if_neg hl, if_neg hl]
  unfold build_siwa_response
  rw [if_neg (by simp [hv]), if_pos hc]
  simp only [hcid]
  exact ⟨_, rfl, rfl, _, rfl, rfl, rfl, by decide, rfl, rfl⟩

/-- Witness for claim C8 at a concrete result whose chain id is zero
and whose second registry part parses to 8453. -/
theorem claim_C8_witness :
    ∃ resp, build_siwa_response c8WitResult = .ok resp
      ∧ resp.status = .not_registered
      ∧ ∃ act, resp.action = some act
        ∧ act.action_type = ("register".toList)
        ∧ act.steps = registerSteps
        ∧ registerSteps.length = 6
        ∧ act.registry_address
            = (if (splitOnChar ':' c8WitResult.agent_registry).length = 3 then
                some ((splitOnChar ':' c8WitResult.agent_registry).getD 2 [])
              else none)
        ∧ act.chain_id
            = (if c8WitResult.chain_id ≠ 0 then some c8WitResult.chain_id
              else if 2 ≤ (splitOnChar ':' c8WitResult.agent_registry).length then
                parseNat ((splitOnChar ':' c8WitResult.agent_registry).getD 1 [])
              else none) :=
  claim_C8_not_registered c8WitResult rfl rfl
    (Or.inr (Or.inr ⟨8453, by decide⟩))
